import Mathlib

/-!
Shallow embedding of the Langtons Ant automaton core from `src/main.rs`
(repository `langtons_ant`).  The embedding covers the `Direction` and
`State` enumerations, the `Cell` and `Main` structures (terminal-only
fields `window`, `delay`, `show_counter` are omitted: they never influence
the automaton state), the `init` constructor, and the body of one
iteration of the `Main::start` loop (lines 133-168), modelled as a `step`
function returning a `StepOutcome` together with the successor state.
Rust `u16` arithmetic (`(self.x as isize + ox as isize) as u16`) is
modelled with `Nat` coordinates and an explicit wrap modulo 2^16.
-/

/-- The four cardinal directions, as in the Rust `Direction` enum. -/
inductive Direction
  | Up
  | Down
  | Left
  | Right
deriving DecidableEq, Repr

namespace Direction

/-- Counter-clockwise rotation, matching `Direction::rotate_left`. -/
def rotate_left : Direction → Direction
  | Up => Left
  | Left => Down
  | Down => Right
  | Right => Up

/-- Clockwise rotation, matching `Direction::rotate_right`. -/
def rotate_right : Direction → Direction
  | Up => Right
  | Right => Down
  | Down => Left
  | Left => Up

/-- Unit displacement of a heading, matching `Direction::offset` (the Rust
function returns a pair of `i8`; we use `Int`). -/
def offset : Direction → Int × Int
  | Up => (0, 1)
  | Down => (0, -1)
  | Left => (1, 0)
  | Right => (-1, 0)

end Direction

/-- Binary cell colour, matching the Rust `State` enum. -/
inductive State
  | White
  | Black
deriving DecidableEq, Repr

/-- Colour swap, matching `State::toggle`. -/
def State.toggle : State → State
  | State.White => State.Black
  | State.Black => State.White

/-- A cell in the grid, matching the Rust `Cell` struct. -/
structure Cell where
  state : State
deriving DecidableEq, Repr

/-- The automaton state, matching the Rust `Main` struct with the purely
terminal-related fields (`window`, `delay`, `show_counter`) omitted.
`grid` is the row-major nested storage `Box<[Box<[Cell]>]>`; `x` and `y`
are the `u16` coordinates (kept as `Nat`, wrapped mod 2^16 by `step`);
`path` is the `--path` rendering flag. -/
structure Main where
  grid : List (List Cell)
  x : Nat
  y : Nat
  heading : Direction
  path : Bool
deriving DecidableEq, Repr

/-- Result of one loop iteration: either the ant stayed on the grid and a
symbol was drawn (`Continued`, carrying the drawn string from lines
146-161), or the bounds check at line 140 failed and `start` returned
(`LeftGrid`). -/
inductive StepOutcome
  | Continued (newChar : String)
  | LeftGrid
deriving DecidableEq, Repr

/-- The Rust `as u16` conversion from a (possibly negative) machine integer:
a twos-complement truncation to the low 16 bits. -/
def u16wrap (v : Int) : Nat := (v % 65536).toNat

/-- Read the cell at row `x`, column `y` (the Rust `self.grid[x][y]` read;
in-bounds accesses never see the defaults). -/
def cellAt (g : List (List Cell)) (x y : Nat) : Cell :=
  (g.getD x []).getD y ⟨State.Black⟩

/-- Write the state of the cell at row `x`, column `y` (the Rust
`self.grid[x][y].state = s` assignment; out-of-range writes are no-ops,
but `step` only writes in bounds). -/
def setCell (g : List (List Cell)) (x y : Nat) (s : State) : List (List Cell) :=
  g.set x ((g.getD x []).set y ⟨s⟩)

/-- New row coordinate of the ant after one move: src/main.rs line 135,
`self.x = (self.x as isize + ox as isize) as u16` where `(oy, ox)` is
`self.heading.offset()` (so `ox` is the second component). -/
def candX (m : Main) : Nat := u16wrap ((m.x : Int) + m.heading.offset.2)

/-- New column coordinate of the ant after one move: src/main.rs line 136,
`self.y = (self.y as isize + oy as isize) as u16` with `oy` the first
component of `offset()`. -/
def candY (m : Main) : Nat := u16wrap ((m.y : Int) + m.heading.offset.1)

/-- One iteration of the loop body of `Main::start` (src/main.rs lines
133-168), excluding the terminal I/O: compute the offsets, commit the
wrapped new position (the Rust code assigns `self.x`/`self.y` before the
bounds check, so the `LeftGrid` branch keeps the committed coordinates),
return `LeftGrid` if the new position is out of bounds, otherwise apply
the branch on the current cell state (write the opposite colour, rotate
the heading, pick the symbol) and then the explicit
`current.state.toggle()` overwrite of line 165. -/
def step (m : Main) : StepOutcome × Main :=
  if candX m ≥ m.grid.length ∨ candY m ≥ (m.grid.getD (candX m) []).length then
    (StepOutcome.LeftGrid, { m with x := candX m, y := candY m })
  else
    let current := cellAt m.grid (candX m) (candY m)
    match current.state with
    | State.White =>
        let g1 := setCell m.grid (candX m) (candY m) State.Black
        let h1 := m.heading.rotate_left
        let ch := if m.path then "░" else " "
        let g2 := setCell g1 (candX m) (candY m) current.state.toggle
        (StepOutcome.Continued ch,
          { m with grid := g2, x := candX m, y := candY m, heading := h1 })
    | State.Black =>
        let g1 := setCell m.grid (candX m) (candY m) State.White
        let h1 := m.heading.rotate_right
        let g2 := setCell g1 (candX m) (candY m) current.state.toggle
        (StepOutcome.Continued "█",
          { m with grid := g2, x := candX m, y := candY m, heading := h1 })

/-- The `init` constructor (src/main.rs lines 89-111): the ant starts at
the grid centre `(h/2, w/2)` heading `Right`, on an `h`-row, `w`-column
grid of all-`Black` cells. -/
def init (w h : Nat) (path : Bool) : Main :=
  { x := h / 2
    y := w / 2
    grid := List.replicate h (List.replicate w ⟨State.Black⟩)
    heading := Direction.Right
    path := path }

/-- Iterate `step` `n` times, discarding the outcomes: `n` trips around
the driving loop. -/
def stepN : Nat → Main → Main
  | 0, m => m
  | Nat.succ k, m => stepN k (step m).2

/-- Total number of cells in a nested grid. -/
def totalCells (g : List (List Cell)) : Nat :=
  (g.map List.length).sum

/-- C5: rotate_left and rotate_right are 4-cycles inverse to one another,
with rotate_left following Up→Left→Down→Right→Up and rotate_right the
inverse cycle Up→Right→Down→Left→Up. -/
theorem C5_rotation_cycles (h : Direction) :
    h.rotate_left.rotate_left.rotate_left.rotate_left = h ∧
    h.rotate_right.rotate_right.rotate_right.rotate_right = h ∧
    h.rotate_left.rotate_right = h ∧
    h.rotate_right.rotate_left = h ∧
    Direction.Up.rotate_left = Direction.Left ∧
    Direction.Left.rotate_left = Direction.Down ∧
    Direction.Down.rotate_left = Direction.Right ∧
    Direction.Right.rotate_left = Direction.Up ∧
    Direction.Up.rotate_right = Direction.Right ∧
    Direction.Right.rotate_right = Direction.Down ∧
    Direction.Down.rotate_right = Direction.Left ∧
    Direction.Left.rotate_right = Direction.Up := by
  cases h <;> decide

/-- C6: offset maps Up to (0,1), Down to (0,-1), Left to (1,0) and Right
to (-1,0); opposite headings have componentwise-negated displacements and
the four offsets sum to (0,0). -/
theorem C6_offset_values :
    Direction.Up.offset = (0, 1) ∧
    Direction.Down.offset = (0, -1) ∧
    Direction.Left.offset = (1, 0) ∧
    Direction.Right.offset = (-1, 0) ∧
    Direction.Down.offset.1 = -Direction.Up.offset.1 ∧
    Direction.Down.offset.2 = -Direction.Up.offset.2 ∧
    Direction.Right.offset.1 = -Direction.Left.offset.1 ∧
    Direction.Right.offset.2 = -Direction.Left.offset.2 ∧
    Direction.Up.offset.1 + Direction.Down.offset.1 + Direction.Left.offset.1
        + Direction.Right.offset.1 = 0 ∧
    Direction.Up.offset.2 + Direction.Down.offset.2 + Direction.Left.offset.2
        + Direction.Right.offset.2 = 0 := by
  decide

/-- C4: on a 1x1 grid with the agent at (0,0), the first step returns
LeftGrid for every initial heading (and either cell colour and path
flag). -/
theorem C4_one_by_one_first_step_leaves (d : Direction) (s : State) (p : Bool) :
    (step ⟨[[⟨s⟩]], 0, 0, d, p⟩).1 = StepOutcome.LeftGrid := by
  cases d <;> cases s <;> cases p <;> decide

/-- C7: init builds a grid holding exactly width * height cells, every
in-bounds coordinate holding Black (Dark). -/
theorem C7_init_all_black (w h : Nat) (p : Bool) (hw : 0 < w) (hh : 0 < h) :
    totalCells (init w h p).grid = w * h ∧
    ∀ x y, x < h → y < w → cellAt (init w h p).grid x y = ⟨State.Black⟩ := by
  refine ⟨?_, ?_⟩
  · simp [totalCells, init, List.map_replicate, List.sum_replicate, smul_eq_mul, Nat.mul_comm]
  · intro x y hx hyw
    simp [cellAt, init, List.getD_eq_getElem?_getD, List.getElem?_replicate, hx, hyw]

/-- C7 witness: a 2x3 grid (width 2, height 3) has 6 cells, all Black. -/
theorem C7_init_all_black_witness :
    (0 < 2 ∧ 0 < 3) ∧
    (totalCells (init 2 3 false).grid = 2 * 3 ∧
     ∀ x y, x < 3 → y < 2 → cellAt (init 2 3 false).grid x y = ⟨State.Black⟩) :=
  ⟨⟨by decide, by decide⟩, C7_init_all_black 2 3 false (by decide) (by decide)⟩

/-- Unfolding of candX at an explicit Main literal: the candidate row
coordinate depends only on the row coordinate and heading. -/
theorem candX_mk (g : List (List Cell)) (x y : Nat) (d : Direction) (p : Bool) :
    candX ⟨g, x, y, d, p⟩ = u16wrap ((x : Int) + d.offset.2) := rfl

/-- Unfolding of candY at an explicit Main literal: the candidate column
coordinate depends only on the column coordinate and heading. -/
theorem candY_mk (g : List (List Cell)) (x y : Nat) (d : Direction) (p : Bool) :
    candY ⟨g, x, y, d, p⟩ = u16wrap ((y : Int) + d.offset.1) := rfl

/-- Helper: the automaton state after a step (grid, position, heading)
does not depend on the rendering flag `path`. -/
theorem step_path_indep (g : List (List Cell)) (x y : Nat) (d : Direction) (p q : Bool) :
    ((step ⟨g, x, y, d, p⟩).2.grid, (step ⟨g, x, y, d, p⟩).2.x,
      (step ⟨g, x, y, d, p⟩).2.y, (step ⟨g, x, y, d, p⟩).2.heading)
      = ((step ⟨g, x, y, d, q⟩).2.grid, (step ⟨g, x, y, d, q⟩).2.x,
      (step ⟨g, x, y, d, q⟩).2.y, (step ⟨g, x, y, d, q⟩).2.heading) := by
  simp only [step, candX_mk, candY_mk]
  split
  · rfl
  · split <;> rfl

/-- C9: step is deterministic — two automatons with the same grid, start
position and heading (the construction parameters; the rendering flag may
even differ) agree on grid, position and heading after any number of
steps. -/
theorem C9_step_deterministic (m₁ m₂ : Main) (n : Nat)
    (hg : m₁.grid = m₂.grid) (hx : m₁.x = m₂.x) (hy : m₁.y = m₂.y)
    (hd : m₁.heading = m₂.heading) :
    (stepN n m₁).grid = (stepN n m₂).grid ∧ (stepN n m₁).x = (stepN n m₂).x ∧
    (stepN n m₁).y = (stepN n m₂).y ∧ (stepN n m₁).heading = (stepN n m₂).heading := by
  induction n generalizing m₁ m₂ with
  | zero => exact ⟨hg, hx, hy, hd⟩
  | succ k ih =>
    obtain ⟨g₁, x₁, y₁, d₁, p₁⟩ := m₁
    obtain ⟨g₂, x₂, y₂, d₂, p₂⟩ := m₂
    simp only at hg hx hy hd
    subst hg; subst hx; subst hy; subst hd
    have h := step_path_indep g₁ x₁ y₁ d₁ p₁ p₂
    simp only [Prod.mk.injEq] at h
    simp only [stepN]
    exact ih _ _ h.1 h.2.1 h.2.2.1 h.2.2.2

/-- C9 witness: two copies of the same 5x4 automaton agree after 6 steps. -/
theorem C9_step_deterministic_witness :
    (stepN 6 (init 5 4 true)).grid = (stepN 6 (init 5 4 true)).grid ∧
    (stepN 6 (init 5 4 true)).x = (stepN 6 (init 5 4 true)).x ∧
    (stepN 6 (init 5 4 true)).y = (stepN 6 (init 5 4 true)).y ∧
    (stepN 6 (init 5 4 true)).heading = (stepN 6 (init 5 4 true)).heading :=
  C9_step_deterministic (init 5 4 true) (init 5 4 true) 6 rfl rfl rfl rfl

/-- C10: for grid dimensions that fit in a u16 and an in-bounds agent
position, the wrapped 16-bit candidate coordinates pass the bounds check
exactly when the exact integer sums position + offset are in bounds, so
the wrap-around at the low edge is always detected as leaving the grid. -/
theorem C10_wrap_no_false_inbounds (m : Main) (h w : Nat)
    (hh : h < 65536) (hw : w < 65536) (hx : m.x < h) (hy : m.y < w) :
    (candX m < h ∧ candY m < w) ↔
      (0 ≤ (m.x : Int) + m.heading.offset.2 ∧ (m.x : Int) + m.heading.offset.2 < (h : Int) ∧
       0 ≤ (m.y : Int) + m.heading.offset.1 ∧ (m.y : Int) + m.heading.offset.1 < (w : Int)) := by
  obtain ⟨g, x, y, d, p⟩ := m
  simp only at hx hy
  cases d <;>
    simp only [candX, candY, u16wrap, Direction.offset] <;>
    omega

/-- C10 witness: concrete instance at a 3x5 grid with the agent at (0,2)
heading Right, where the exact row sum is negative and the wrapped coordinate
fails the bounds check. -/
theorem C10_wrap_no_false_inbounds_witness :
    (3 : Nat) < 65536 ∧ (5 : Nat) < 65536 ∧
    (Main.x ⟨[], 0, 2, Direction.Right, false⟩ < 3) ∧
    (Main.y ⟨[], 0, 2, Direction.Right, false⟩ < 5) ∧
    ((candX ⟨[], 0, 2, Direction.Right, false⟩ < 3 ∧ candY ⟨[], 0, 2, Direction.Right, false⟩ < 5) ↔
      (0 ≤ (Main.x ⟨[], 0, 2, Direction.Right, false⟩ : Int)
            + (Main.heading ⟨[], 0, 2, Direction.Right, false⟩).offset.2 ∧
       (Main.x ⟨[], 0, 2, Direction.Right, false⟩ : Int)
            + (Main.heading ⟨[], 0, 2, Direction.Right, false⟩).offset.2 < (3 : Int) ∧
       0 ≤ (Main.y ⟨[], 0, 2, Direction.Right, false⟩ : Int)
            + (Main.heading ⟨[], 0, 2, Direction.Right, false⟩).offset.1 ∧
       (Main.y ⟨[], 0, 2, Direction.Right, false⟩ : Int)
            + (Main.heading ⟨[], 0, 2, Direction.Right, false⟩).offset.1 < (5 : Int))) :=
  ⟨by decide, by decide, by decide, by decide,
    C10_wrap_no_false_inbounds ⟨[], 0, 2, Direction.Right, false⟩ 3 5
      (by decide) (by decide) (by decide) (by decide)⟩

/-- Helper: setting then reading the same index of a list under `getD`. -/
theorem getD_set_self_of_lt {α : Type} (l : List α) (i : Nat) (a d : α) (h : i < l.length) :
    (l.set i a).getD i d = a := by
  rw [List.getD_eq_getElem?_getD, List.getElem?_set_self h]
  rfl

/-- Helper: setting one index of a list leaves `getD` at other indices
unchanged. -/
theorem getD_set_ne {α : Type} (l : List α) (i j : Nat) (a d : α) (h : i ≠ j) :
    (l.set i a).getD j d = l.getD j d := by
  rw [List.getD_eq_getElem?_getD, List.getElem?_set_ne h, ← List.getD_eq_getElem?_getD]

/-- Helper: a cell write keeps the number of rows. -/
theorem length_setCell (g : List (List Cell)) (x y : Nat) (s : State) :
    (setCell g x y s).length = g.length := by
  simp [setCell]

/-- Helper: the row a cell write targets, after the write. -/
theorem getD_setCell_same_row (g : List (List Cell)) (x y : Nat) (s : State) :
    (setCell g x y s).getD x [] = (g.getD x []).set y ⟨s⟩ := by
  unfold setCell
  rcases Nat.lt_or_ge x g.length with hx | hx
  · exact getD_set_self_of_lt _ _ _ _ hx
  · rw [List.set_eq_of_length_le hx]
    have hnil : g.getD x [] = [] := by
      rw [List.getD_eq_getElem?_getD, List.getElem?_eq_none (by simpa using hx)]
      rfl
    rw [hnil]
    rfl

/-- Helper: reading back a written cell. -/
theorem cellAt_setCell_self (g : List (List Cell)) (x y : Nat) (s : State)
    (hy : y < (g.getD x []).length) :
    cellAt (setCell g x y s) x y = ⟨s⟩ := by
  unfold cellAt
  rw [getD_setCell_same_row]
  exact getD_set_self_of_lt _ _ _ _ hy

/-- Helper: a cell write does not touch any other coordinate. -/
theorem cellAt_setCell_ne (g : List (List Cell)) (x y i j : Nat) (s : State)
    (h : ¬(i = x ∧ j = y)) :
    cellAt (setCell g x y s) i j = cellAt g i j := by
  unfold cellAt
  rcases Decidable.em (i = x) with hix | hix
  · subst hix
    have hjy : j ≠ y := fun hj => h ⟨rfl, hj⟩
    rw [getD_setCell_same_row]
    rw [getD_set_ne _ _ _ _ _ (Ne.symm hjy)]
  · unfold setCell
    rw [getD_set_ne _ _ _ _ _ (fun he => hix he.symm)]

/-- Helper: toggling always changes the colour. -/
theorem State.toggle_ne (s : State) : s.toggle ≠ s := by
  cases s <;> decide

/-- Helper: full description of a `Continued` step — the bounds check
passed, the grid received two writes of the toggled colour at the new
position, the position was committed, the heading was rotated by the
colour found there, and the drawn symbol reflects that colour. -/
theorem step_continued_spec (m : Main) (c : String)
    (h : (step m).1 = StepOutcome.Continued c) :
    candX m < m.grid.length ∧ candY m < (m.grid.getD (candX m) []).length ∧
    (step m).2.grid = setCell (setCell m.grid (candX m) (candY m)
          ((cellAt m.grid (candX m) (candY m)).state.toggle)) (candX m) (candY m)
          ((cellAt m.grid (candX m) (candY m)).state.toggle) ∧
    (step m).2.x = candX m ∧ (step m).2.y = candY m ∧
    (step m).2.heading = (if (cellAt m.grid (candX m) (candY m)).state = State.White
        then m.heading.rotate_left else m.heading.rotate_right) ∧
    c = (if (cellAt m.grid (candX m) (candY m)).state = State.White
        then (if m.path then "░" else " ") else "█") := by
  by_cases hb : candX m ≥ m.grid.length ∨ candY m ≥ (m.grid.getD (candX m) []).length
  · exfalso
    simp only [step, if_pos hb] at h
    exact StepOutcome.noConfusion h
  · have hbn := hb
    push_neg at hbn
    refine ⟨hbn.1, hbn.2, ?_⟩
    simp only [step, if_neg hb] at h ⊢
    cases hs : (cellAt m.grid (candX m) (candY m)).state <;> simp_all [State.toggle]

/-- C1: on every Continued step, the cell at the new position of the agent ends
the step holding the toggle of the colour it held before the step, and the
heading is rotated left when that prior colour was White (Light) and
rotated right when it was Black (Dark). -/
theorem C1_continued_toggle_and_turn (m : Main) (c : String)
    (h : (step m).1 = StepOutcome.Continued c) :
    cellAt (step m).2.grid (step m).2.x (step m).2.y
      = ⟨(cellAt m.grid (step m).2.x (step m).2.y).state.toggle⟩ ∧
    ((cellAt m.grid (step m).2.x (step m).2.y).state = State.White →
      (step m).2.heading = m.heading.rotate_left) ∧
    ((cellAt m.grid (step m).2.x (step m).2.y).state = State.Black →
      (step m).2.heading = m.heading.rotate_right) := by
  obtain ⟨hx, hy, hg, hxx, hyy, hh, _⟩ := step_continued_spec m c h
  rw [hxx, hyy, hg]
  have hy1 : candY m < ((setCell m.grid (candX m) (candY m)
      ((cellAt m.grid (candX m) (candY m)).state.toggle)).getD (candX m) []).length := by
    rw [getD_setCell_same_row, List.length_set]
    exact hy
  refine ⟨cellAt_setCell_self _ _ _ _ hy1, ?_, ?_⟩
  · intro hw
    rw [hh, if_pos hw]
  · intro hbk
    rw [hh, if_neg (by rw [hbk]; decide)]

/-- C1 witness: on the 1-row, 2-column all-Black grid with the ant at
(0,0) heading Left, the step continues onto (0,1), turns that cell White
(the toggle of Black) and rotates the heading right. -/
theorem C1_continued_toggle_and_turn_witness :
    (step ⟨[[⟨State.Black⟩, ⟨State.Black⟩]], 0, 0, Direction.Left, false⟩).1
        = StepOutcome.Continued "█" ∧
    (cellAt (step ⟨[[⟨State.Black⟩, ⟨State.Black⟩]], 0, 0, Direction.Left, false⟩).2.grid
        (step ⟨[[⟨State.Black⟩, ⟨State.Black⟩]], 0, 0, Direction.Left, false⟩).2.x
        (step ⟨[[⟨State.Black⟩, ⟨State.Black⟩]], 0, 0, Direction.Left, false⟩).2.y
      = ⟨(cellAt (Main.grid ⟨[[⟨State.Black⟩, ⟨State.Black⟩]], 0, 0, Direction.Left, false⟩)
            (step ⟨[[⟨State.Black⟩, ⟨State.Black⟩]], 0, 0, Direction.Left, false⟩).2.x
            (step ⟨[[⟨State.Black⟩, ⟨State.Black⟩]], 0, 0, Direction.Left, false⟩).2.y).state.toggle⟩ ∧
     ((cellAt (Main.grid ⟨[[⟨State.Black⟩, ⟨State.Black⟩]], 0, 0, Direction.Left, false⟩)
            (step ⟨[[⟨State.Black⟩, ⟨State.Black⟩]], 0, 0, Direction.Left, false⟩).2.x
            (step ⟨[[⟨State.Black⟩, ⟨State.Black⟩]], 0, 0, Direction.Left, false⟩).2.y).state
          = State.White →
        (step ⟨[[⟨State.Black⟩, ⟨State.Black⟩]], 0, 0, Direction.Left, false⟩).2.heading
          = (Main.heading ⟨[[⟨State.Black⟩, ⟨State.Black⟩]], 0, 0,
              Direction.Left, false⟩).rotate_left) ∧
     ((cellAt (Main.grid ⟨[[⟨State.Black⟩, ⟨State.Black⟩]], 0, 0, Direction.Left, false⟩)
            (step ⟨[[⟨State.Black⟩, ⟨State.Black⟩]], 0, 0, Direction.Left, false⟩).2.x
            (step ⟨[[⟨State.Black⟩, ⟨State.Black⟩]], 0, 0, Direction.Left, false⟩).2.y).state
          = State.Black →
        (step ⟨[[⟨State.Black⟩, ⟨State.Black⟩]], 0, 0, Direction.Left, false⟩).2.heading
          = (Main.heading ⟨[[⟨State.Black⟩, ⟨State.Black⟩]], 0, 0,
              Direction.Left, false⟩).rotate_right)) :=
  ⟨by decide, C1_continued_toggle_and_turn
    ⟨[[⟨State.Black⟩, ⟨State.Black⟩]], 0, 0, Direction.Left, false⟩ "█" (by decide)⟩

/-- C2 counterexample: claim C2 states the stored colour at the visited
cell ends the step equal to its pre-step colour; at this concrete
Continued step the visited cell flips from Black to White, so the two
writes do not cancel. -/
theorem C2_counterexample :
    (step ⟨[[⟨State.Black⟩, ⟨State.Black⟩]], 0, 1, Direction.Right, false⟩).1
        = StepOutcome.Continued "█" ∧
    cellAt (step ⟨[[⟨State.Black⟩, ⟨State.Black⟩]], 0, 1, Direction.Right, false⟩).2.grid
        (step ⟨[[⟨State.Black⟩, ⟨State.Black⟩]], 0, 1, Direction.Right, false⟩).2.x
        (step ⟨[[⟨State.Black⟩, ⟨State.Black⟩]], 0, 1, Direction.Right, false⟩).2.y
      ≠ cellAt (Main.grid ⟨[[⟨State.Black⟩, ⟨State.Black⟩]], 0, 1, Direction.Right, false⟩)
        (step ⟨[[⟨State.Black⟩, ⟨State.Black⟩]], 0, 1, Direction.Right, false⟩).2.x
        (step ⟨[[⟨State.Black⟩, ⟨State.Black⟩]], 0, 1, Direction.Right, false⟩).2.y := by
  decide

/-- C2 (amended): on every Continued step the explicit post-branch write
of line 165 stores the toggle of the pre-step colour — the same value the
branch already wrote, because `current` is a copy taken before the branch
mutates the cell — so the visited cell ends the step holding the toggle of
its pre-step colour (not the pre-step colour itself), and the rendered
symbol reflects that same toggle decision. -/
theorem C2_stored_colour_is_single_toggle (m : Main) (c : String)
    (h : (step m).1 = StepOutcome.Continued c) :
    (cellAt (step m).2.grid (step m).2.x (step m).2.y).state
        = (cellAt m.grid (step m).2.x (step m).2.y).state.toggle ∧
    (cellAt (step m).2.grid (step m).2.x (step m).2.y).state
        ≠ (cellAt m.grid (step m).2.x (step m).2.y).state ∧
    c = (if (cellAt m.grid (step m).2.x (step m).2.y).state = State.White
        then (if m.path then "░" else " ") else "█") := by
  obtain ⟨hx, hy, hg, hxx, hyy, _, hc⟩ := step_continued_spec m c h
  rw [hxx, hyy, hg]
  have hy1 : candY m < ((setCell m.grid (candX m) (candY m)
      ((cellAt m.grid (candX m) (candY m)).state.toggle)).getD (candX m) []).length := by
    rw [getD_setCell_same_row, List.length_set]
    exact hy
  rw [cellAt_setCell_self _ _ _ _ hy1]
  exact ⟨rfl, State.toggle_ne _, hc⟩

/-- C2 witness: a concrete White cell entered with the path flag on: the
cell ends Black (the single toggle) and the symbol is the path marker. -/
theorem C2_stored_colour_is_single_toggle_witness :
    (step ⟨[[⟨State.White⟩], [⟨State.White⟩]], 0, 0, Direction.Up, true⟩).1
        = StepOutcome.Continued "░" ∧
    ((cellAt (step ⟨[[⟨State.White⟩], [⟨State.White⟩]], 0, 0, Direction.Up, true⟩).2.grid
        (step ⟨[[⟨State.White⟩], [⟨State.White⟩]], 0, 0, Direction.Up, true⟩).2.x
        (step ⟨[[⟨State.White⟩], [⟨State.White⟩]], 0, 0, Direction.Up, true⟩).2.y).state
        = (cellAt (Main.grid ⟨[[⟨State.White⟩], [⟨State.White⟩]], 0, 0, Direction.Up, true⟩)
            (step ⟨[[⟨State.White⟩], [⟨State.White⟩]], 0, 0, Direction.Up, true⟩).2.x
            (step ⟨[[⟨State.White⟩], [⟨State.White⟩]], 0, 0,
              Direction.Up, true⟩).2.y).state.toggle ∧
     (cellAt (step ⟨[[⟨State.White⟩], [⟨State.White⟩]], 0, 0, Direction.Up, true⟩).2.grid
        (step ⟨[[⟨State.White⟩], [⟨State.White⟩]], 0, 0, Direction.Up, true⟩).2.x
        (step ⟨[[⟨State.White⟩], [⟨State.White⟩]], 0, 0, Direction.Up, true⟩).2.y).state
        ≠ (cellAt (Main.grid ⟨[[⟨State.White⟩], [⟨State.White⟩]], 0, 0, Direction.Up, true⟩)
            (step ⟨[[⟨State.White⟩], [⟨State.White⟩]], 0, 0, Direction.Up, true⟩).2.x
            (step ⟨[[⟨State.White⟩], [⟨State.White⟩]], 0, 0, Direction.Up, true⟩).2.y).state ∧
     "░" = (if (cellAt (Main.grid ⟨[[⟨State.White⟩], [⟨State.White⟩]], 0, 0,
              Direction.Up, true⟩)
            (step ⟨[[⟨State.White⟩], [⟨State.White⟩]], 0, 0, Direction.Up, true⟩).2.x
            (step ⟨[[⟨State.White⟩], [⟨State.White⟩]], 0, 0, Direction.Up, true⟩).2.y).state
              = State.White
         then (if Main.path ⟨[[⟨State.White⟩], [⟨State.White⟩]], 0, 0, Direction.Up, true⟩
               then "░" else " ")
         else "█")) :=
  ⟨by decide, C2_stored_colour_is_single_toggle
    ⟨[[⟨State.White⟩], [⟨State.White⟩]], 0, 0, Direction.Up, true⟩ "░" (by decide)⟩

/-- C3 counterexample: claim C3 states a LeftGrid step leaves the entire
state unchanged, including the stored position; on the 1x1 grid heading
Up, the step returns LeftGrid yet the stored row coordinate has been
committed to the candidate value 1. -/
theorem C3_counterexample :
    (step ⟨[[⟨State.Black⟩]], 0, 0, Direction.Up, false⟩).1 = StepOutcome.LeftGrid ∧
    (step ⟨[[⟨State.Black⟩]], 0, 0, Direction.Up, false⟩).2.x
      ≠ Main.x ⟨[[⟨State.Black⟩]], 0, 0, Direction.Up, false⟩ := by
  decide

/-- C3 (amended): when the candidate position is out of bounds, step
returns LeftGrid, writes no grid cell and does not rotate the heading,
but the stored position of the agent has already been updated to the wrapped
candidate coordinates (the Rust code assigns `self.x`/`self.y` before the
bounds check). -/
theorem C3_leftgrid_frozen_grid_heading (m : Main)
    (h : (step m).1 = StepOutcome.LeftGrid) :
    (step m).2.grid = m.grid ∧ (step m).2.heading = m.heading ∧
    (step m).2.x = candX m ∧ (step m).2.y = candY m := by
  by_cases hb : candX m ≥ m.grid.length ∨ candY m ≥ (m.grid.getD (candX m) []).length
  · simp only [step, if_pos hb]
    exact ⟨trivial, trivial, trivial, trivial⟩
  · exfalso
    simp only [step, if_neg hb] at h
    cases hs : (cellAt m.grid (candX m) (candY m)).state <;> simp_all

/-- C3 witness: the ant at (0,0) of a 2x2 grid heading Down wraps to row
65535, returns LeftGrid, and keeps grid and heading intact while its
position holds the wrapped candidate. -/
theorem C3_leftgrid_frozen_grid_heading_witness :
    (step ⟨[[⟨State.Black⟩, ⟨State.White⟩], [⟨State.Black⟩, ⟨State.Black⟩]], 0, 0,
        Direction.Down, false⟩).1 = StepOutcome.LeftGrid ∧
    ((step ⟨[[⟨State.Black⟩, ⟨State.White⟩], [⟨State.Black⟩, ⟨State.Black⟩]], 0, 0,
        Direction.Down, false⟩).2.grid
      = Main.grid ⟨[[⟨State.Black⟩, ⟨State.White⟩], [⟨State.Black⟩, ⟨State.Black⟩]], 0, 0,
        Direction.Down, false⟩ ∧
     (step ⟨[[⟨State.Black⟩, ⟨State.White⟩], [⟨State.Black⟩, ⟨State.Black⟩]], 0, 0,
        Direction.Down, false⟩).2.heading
      = Main.heading ⟨[[⟨State.Black⟩, ⟨State.White⟩], [⟨State.Black⟩, ⟨State.Black⟩]], 0, 0,
        Direction.Down, false⟩ ∧
     (step ⟨[[⟨State.Black⟩, ⟨State.White⟩], [⟨State.Black⟩, ⟨State.Black⟩]], 0, 0,
        Direction.Down, false⟩).2.x
      = candX ⟨[[⟨State.Black⟩, ⟨State.White⟩], [⟨State.Black⟩, ⟨State.Black⟩]], 0, 0,
        Direction.Down, false⟩ ∧
     (step ⟨[[⟨State.Black⟩, ⟨State.White⟩], [⟨State.Black⟩, ⟨State.Black⟩]], 0, 0,
        Direction.Down, false⟩).2.y
      = candY ⟨[[⟨State.Black⟩, ⟨State.White⟩], [⟨State.Black⟩, ⟨State.Black⟩]], 0, 0,
        Direction.Down, false⟩) :=
  ⟨by decide, C3_leftgrid_frozen_grid_heading
    ⟨[[⟨State.Black⟩, ⟨State.White⟩], [⟨State.Black⟩, ⟨State.Black⟩]], 0, 0,
      Direction.Down, false⟩ (by decide)⟩

/-- C8: a Continued step mutates exactly one grid cell: the cell at the
new position of the agent changes its colour, and every cell at any other
coordinate holds the same colour after the step as before it. -/
theorem C8_touches_exactly_one_cell (m : Main) (c : String)
    (h : (step m).1 = StepOutcome.Continued c) :
    cellAt (step m).2.grid (step m).2.x (step m).2.y
        ≠ cellAt m.grid (step m).2.x (step m).2.y ∧
    ∀ i j, ¬(i = (step m).2.x ∧ j = (step m).2.y) →
      cellAt (step m).2.grid i j = cellAt m.grid i j := by
  obtain ⟨hx, hy, hg, hxx, hyy, _, _⟩ := step_continued_spec m c h
  rw [hxx, hyy, hg]
  have hy1 : candY m < ((setCell m.grid (candX m) (candY m)
      ((cellAt m.grid (candX m) (candY m)).state.toggle)).getD (candX m) []).length := by
    rw [getD_setCell_same_row, List.length_set]
    exact hy
  constructor
  · rw [cellAt_setCell_self _ _ _ _ hy1]
    intro heq
    exact State.toggle_ne (cellAt m.grid (candX m) (candY m)).state (congrArg Cell.state heq)
  · intro i j hne
    rw [cellAt_setCell_ne _ _ _ _ _ _ hne, cellAt_setCell_ne _ _ _ _ _ _ hne]

/-- C8 witness: entering the Black cell (0,1) of a 1x2 grid changes it and
leaves the other cell untouched. -/
theorem C8_touches_exactly_one_cell_witness :
    (step ⟨[[⟨State.White⟩, ⟨State.Black⟩]], 0, 0, Direction.Left, true⟩).1
        = StepOutcome.Continued "█" ∧
    (cellAt (step ⟨[[⟨State.White⟩, ⟨State.Black⟩]], 0, 0, Direction.Left, true⟩).2.grid
        (step ⟨[[⟨State.White⟩, ⟨State.Black⟩]], 0, 0, Direction.Left, true⟩).2.x
        (step ⟨[[⟨State.White⟩, ⟨State.Black⟩]], 0, 0, Direction.Left, true⟩).2.y
      ≠ cellAt (Main.grid ⟨[[⟨State.White⟩, ⟨State.Black⟩]], 0, 0, Direction.Left, true⟩)
        (step ⟨[[⟨State.White⟩, ⟨State.Black⟩]], 0, 0, Direction.Left, true⟩).2.x
        (step ⟨[[⟨State.White⟩, ⟨State.Black⟩]], 0, 0, Direction.Left, true⟩).2.y ∧
     ∀ i j, ¬(i = (step ⟨[[⟨State.White⟩, ⟨State.Black⟩]], 0, 0, Direction.Left, true⟩).2.x ∧
          j = (step ⟨[[⟨State.White⟩, ⟨State.Black⟩]], 0, 0, Direction.Left, true⟩).2.y) →
        cellAt (step ⟨[[⟨State.White⟩, ⟨State.Black⟩]], 0, 0, Direction.Left, true⟩).2.grid i j
          = cellAt (Main.grid ⟨[[⟨State.White⟩, ⟨State.Black⟩]], 0, 0,
              Direction.Left, true⟩) i j) :=
  ⟨by decide, C8_touches_exactly_one_cell
    ⟨[[⟨State.White⟩, ⟨State.Black⟩]], 0, 0, Direction.Left, true⟩ "█" (by decide)⟩
